import Mathlib

/-!
Shallow embedding of `ecovacs-traccar-sync`.

The repository has two source files:

* `src/traccar_client.py` — the coroutine `send_osmand_position`, which
  validates a telemetry sample, builds the OsmAnd query-parameter dict,
  issues one HTTP GET against the Traccar server, and interprets the
  response.
* `src/main.py` — the event-glue layer: a module-level mutable
  `lastKnownBattery` (initially `None`), an `on_battery` handler that
  overwrites it with `event.value`, and `sendGpsPositionToTraccar`, which
  forwards each GPS fix to `send_osmand_position` with
  `battery=lastKnownBattery`.

Python numbers that can reach the validation code are modelled by
`PyNumber` (`int`, `float` — as a rational —, `bool`, or any non-numeric
object); parameter-dict values by `PVal`; the params dict itself by an
association list with Python `d[k] = v` / `d.update(...)` semantics.
The network is a parameter (`NetOutcome`): the single `session.get` call
either yields a response with a status and a body, fails at the
connection level (aiohttp raises a `ClientConnectorError`, a subclass of
`aiohttp.ClientError`), or times out (aiohttp raises
`asyncio.TimeoutError`).  The observable effects of one call — result or
exception, requests attempted, session creation/closing, and anything
printed — are collected in `SendTrace`.
-/

/-- A Python value appearing as `lat`/`lon` or another numeric argument:
`int`, `float` (modelled as a rational), `bool` (a subclass of `int` in
Python, so `isinstance(x, (int, float))` accepts it), or a non-numeric
object of any other class. -/
inductive PyNumber where
  | int (n : Int)
  | float (q : ℚ)
  | bool (b : Bool)
  | nonNumeric
  deriving DecidableEq, Repr

/-- Truth value of Python `isinstance(x, (int, float))`: `bool` passes
because `bool` is a subclass of `int`. -/
def PyNumber.isNumeric : PyNumber → Bool
  | .int _ => true
  | .float _ => true
  | .bool _ => true
  | .nonNumeric => false

/-- Numeric value used by Python comparisons such as `-90 <= lat <= 90`:
`True` compares as `1` and `False` as `0`. (Only meaningful when
`isNumeric`; the code guards every comparison with the `isinstance`
check.) -/
def PyNumber.toRat : PyNumber → ℚ
  | .int n => (n : ℚ)
  | .float q => q
  | .bool b => if b then 1 else 0
  | .nonNumeric => 0

/-- A value stored in the `params` dict of `send_osmand_position`:
a string (e.g. `device_id`, `"true"`/`"false"`, custom attributes) or a
number (coordinates, telemetry, the epoch-millisecond timestamp). -/
inductive PVal where
  | str (s : String)
  | num (x : PyNumber)
  deriving DecidableEq, Repr

/-- The `params` dict, as an association list in insertion order. -/
abbrev PDict := List (String × PVal)

/-- Python dict assignment `d[k] = v`: overwrite the entry for `k` if it
exists, otherwise append a new entry. -/
def dictUpdate : PDict → String → PVal → PDict
  | [], k, v => [(k, v)]
  | (k', v') :: rest, k, v =>
      if k' = k then (k, v) :: rest else (k', v') :: dictUpdate rest k v

/-- Python dict read `d.get(k)`. -/
def dictLookup : PDict → String → Option PVal
  | [], _ => none
  | (k', v) :: rest, k => if k' = k then some v else dictLookup rest k

/-- Python `d.update(cs)`: assign every pair of `cs` into `d`, in order.
This is how `params.update(custom_attributes)` merges the
`**custom_attributes` dict into the protocol parameters. -/
def dictUpdateAll (d : PDict) (cs : PDict) : PDict :=
  cs.foldl (fun d kv => dictUpdate d kv.1 kv.2) d

/-- Conditional insertion `if x is not None: params[k] = f(x)`, with the
already-mapped optional value as argument. -/
def addOpt (d : PDict) (k : String) : Option PVal → PDict
  | some v => dictUpdate d k v
  | none => d

/-- Python `int(q)` on a float/rational: truncation toward zero. -/
def pyTrunc (q : ℚ) : Int :=
  if 0 ≤ q then ⌊q⌋ else ⌈q⌉

/-- Python `s.rstrip('/')`: drop every trailing slash. -/
def pyRstripSlashes (s : String) : String :=
  s.dropRightWhile (· = '/')

/-- The arguments of one `send_osmand_position` call.  `timestamp` is the
value `timestamp.timestamp()` would return — seconds since the Unix epoch
as a rational.  `sessionProvided` records whether the caller passed a
`session`; `custom_attributes` models the `**custom_attributes` dict as
its item list (Python keyword arguments have pairwise-distinct keys). -/
structure SendArgs where
  traccar_url : String
  device_id : String
  lat : PyNumber
  lon : PyNumber
  timestamp : Option ℚ := none
  speed : Option PyNumber := none
  bearing : Option PyNumber := none
  altitude : Option PyNumber := none
  accuracy : Option PyNumber := none
  hdop : Option PyNumber := none
  battery : Option PyNumber := none
  charge : Option Bool := none
  valid : Option Bool := none
  driver_unique_id : Option String := none
  sessionProvided : Bool := false
  timeout : Int := 30
  custom_attributes : PDict := []
  deriving DecidableEq, Repr

/-- The validation block of `send_osmand_position` (lines 107–113):
`if not device_id: raise ValueError(...)`, then
`if not isinstance(lat, (int, float)) or not -90 <= lat <= 90: ...`,
then the same for `lon` with range `[-180, 180]`.  Returns the message of
the `ValueError` raised, or `none` when validation passes. -/
def validationError (a : SendArgs) : Option String :=
  if a.device_id = "" then some "device_id is required"
  else if ¬(a.lat.isNumeric = true ∧ -90 ≤ a.lat.toRat ∧ a.lat.toRat ≤ 90) then
    some "lat must be a number between -90 and 90"
  else if ¬(a.lon.isNumeric = true ∧ -180 ≤ a.lon.toRat ∧ a.lon.toRat ≤ 180) then
    some "lon must be a number between -180 and 180"
  else none

/-- The params construction of `send_osmand_position` (lines 116–155):
start from `{"id": device_id, "lat": lat, "lon": lon}`, conditionally
assign each optional field under its protocol key —
`timestamp ↦ int(timestamp.timestamp() * 1000)` under `"timestamp"`,
`speed`/`bearing`/`altitude`/`accuracy`/`hdop` under their own names,
`battery` under `"batt"`, `charge` and `valid` as the strings
`"true"`/`"false"`, `driver_unique_id` under `"driverUniqueId"` — and
finally `params.update(custom_attributes)`. -/
def buildParams (a : SendArgs) : PDict :=
  let params : PDict := [("id", .str a.device_id), ("lat", .num a.lat), ("lon", .num a.lon)]
  let params := addOpt params "timestamp"
    (a.timestamp.map (fun t => .num (.int (pyTrunc (t * 1000)))))
  let params := addOpt params "speed" (a.speed.map .num)
  let params := addOpt params "bearing" (a.bearing.map .num)
  let params := addOpt params "altitude" (a.altitude.map .num)
  let params := addOpt params "accuracy" (a.accuracy.map .num)
  let params := addOpt params "hdop" (a.hdop.map .num)
  let params := addOpt params "batt" (a.battery.map .num)
  let params := addOpt params "charge"
    (a.charge.map (fun b => .str (if b then "true" else "false")))
  let params := addOpt params "valid"
    (a.valid.map (fun b => .str (if b then "true" else "false")))
  let params := addOpt params "driverUniqueId" (a.driver_unique_id.map .str)
  dictUpdateAll params a.custom_attributes

/-- Outcome of the single `session.get` attempt, supplied by the
environment: a server response, a connection-level failure (connection
refused / DNS — aiohttp raises `ClientConnectorError`), or expiry of the
`ClientTimeout` (aiohttp raises `asyncio.TimeoutError`). -/
inductive NetOutcome where
  | response (status : Nat) (body : String)
  | connError (msg : String)
  | timeout
  deriving DecidableEq, Repr

/-- The exception escaping a failed `send_osmand_position` call.
`valueError` is raised by the validation block; `clientError` is the
`aiohttp.ClientError(...)` the code itself raises on a non-200 status;
`clientConnectorError` is the aiohttp connection-level exception the
`except`/`raise` re-raises (in aiohttp's hierarchy it is a subclass of
`aiohttp.ClientError`); `timeoutError` is `asyncio.TimeoutError` (not an
`aiohttp.ClientError`). -/
inductive SendError where
  | valueError (msg : String)
  | clientError (msg : String)
  | clientConnectorError (msg : String)
  | timeoutError
  deriving DecidableEq, Repr

/-- Truth value of Python `isinstance(e, aiohttp.ClientError)` for the
exceptions of `SendError`: `ClientConnectorError` is a subclass of
`ClientError`; `ValueError` and `asyncio.TimeoutError` are unrelated. -/
def SendError.isAiohttpClientError : SendError → Bool
  | .valueError _ => false
  | .clientError _ => true
  | .clientConnectorError _ => true
  | .timeoutError => false

instance : DecidableEq (Except SendError Bool) := fun a b =>
  match a, b with
  | .ok x, .ok y => decidable_of_iff (x = y) (by simp)
  | .ok _, .error _ => isFalse (by simp)
  | .error _, .ok _ => isFalse (by simp)
  | .error e, .error f => decidable_of_iff (e = f) (by simp)

/-- Everything observable about one `send_osmand_position` call:
the returned value or escaped exception, the GET requests attempted
(URL after `rstrip('/')`, with their params), whether the call created
its own `aiohttp.ClientSession`, whether it closed the session it
created, whether it closed a caller-supplied session, and the lines it
printed. -/
structure SendTrace where
  result : Except SendError Bool
  requests : List (String × PDict)
  createdSession : Bool
  closedCreatedSession : Bool
  closedProvidedSession : Bool
  printed : List String
  deriving DecidableEq, Repr

/-- `send_osmand_position` from `src/traccar_client.py`.  Validation runs
first and raises before any params are built, any session is created or
any request is attempted.  Otherwise the params dict and URL are built, a
session is created exactly when none was provided (`close_session`), and
the GET is attempted once.  A 200 response prints a success line and
returns `True`; any other status raises `aiohttp.ClientError` with the
status and response body in its message; connection errors and timeouts
propagate.  The `finally` block closes the session iff the call created
it; a caller-supplied session is never closed. -/
def send_osmand_position (a : SendArgs) (net : NetOutcome) : SendTrace :=
  match validationError a with
  | some msg =>
      { result := .error (.valueError msg), requests := [], createdSession := false,
        closedCreatedSession := false, closedProvidedSession := false, printed := [] }
  | none =>
      let params := buildParams a
      let url := pyRstripSlashes a.traccar_url
      let close_session := !a.sessionProvided
      match net with
      | .response status body =>
          if status = 200 then
            { result := .ok true, requests := [(url, params)],
              createdSession := close_session, closedCreatedSession := close_session,
              closedProvidedSession := false,
              printed := ["Traccar request succeeded with status " ++ toString status] }
          else
            { result := .error (.clientError
                ("Traccar request failed with status " ++ toString status ++ ": " ++ body)),
              requests := [(url, params)],
              createdSession := close_session, closedCreatedSession := close_session,
              closedProvidedSession := false, printed := [] }
      | .connError msg =>
          { result := .error (.clientConnectorError msg), requests := [(url, params)],
            createdSession := close_session, closedCreatedSession := close_session,
            closedProvidedSession := false, printed := [] }
      | .timeout =>
          { result := .error .timeoutError, requests := [(url, params)],
            createdSession := close_session, closedCreatedSession := close_session,
            closedProvidedSession := false, printed := [] }

theorem dictLookup_dictUpdate (d : PDict) (k : String) (v : PVal) (k' : String) :
    dictLookup (dictUpdate d k v) k' = if k = k' then some v else dictLookup d k' := by
  induction d with
  | nil => simp [dictUpdate, dictLookup]
  | cons p rest ih =>
    obtain ⟨k₀, v₀⟩ := p
    simp only [dictUpdate]
    by_cases h : k₀ = k
    · subst h
      by_cases h' : k₀ = k' <;> simp [dictLookup, h']
    · by_cases h' : k₀ = k' <;> by_cases h'' : k = k' <;> simp_all [dictLookup]

theorem dictLookup_addOpt (d : PDict) (k : String) (o : Option PVal) (k' : String) :
    dictLookup (addOpt d k o) k' =
      if k = k' then o.or (dictLookup d k') else dictLookup d k' := by
  cases o <;> simp [addOpt, dictLookup_dictUpdate, Option.or]

theorem dictUpdateAll_cons (d : PDict) (kv : String × PVal) (cs : PDict) :
    dictUpdateAll d (kv :: cs) = dictUpdateAll (dictUpdate d kv.1 kv.2) cs := rfl

theorem dictLookup_dictUpdateAll_of_ne (cs : PDict) (d : PDict) (k : String)
    (h : ∀ kv ∈ cs, kv.1 ≠ k) :
    dictLookup (dictUpdateAll d cs) k = dictLookup d k := by
  induction cs generalizing d with
  | nil => rfl
  | cons kv cs ih =>
    rw [dictUpdateAll_cons, ih _ (fun p hp => h p (List.mem_cons_of_mem _ hp)),
      dictLookup_dictUpdate]
    simp [h kv (List.mem_cons_self _ _)]

theorem dictLookup_dictUpdateAll_of_mem (cs : PDict) (d : PDict) (k : String) (v : PVal)
    (hnd : (cs.map Prod.fst).Nodup) (hm : (k, v) ∈ cs) :
    dictLookup (dictUpdateAll d cs) k = some v := by
  induction cs generalizing d with
  | nil => cases hm
  | cons kv cs ih =>
    rw [dictUpdateAll_cons]
    rw [List.map_cons, List.nodup_cons] at hnd
    rcases List.mem_cons.mp hm with h | h
    · subst h
      have hne : ∀ p ∈ cs, p.1 ≠ k := by
        intro p hp hpk
        have hmem : p.1 ∈ cs.map Prod.fst := List.mem_map_of_mem Prod.fst hp
        rw [hpk] at hmem
        exact hnd.1 hmem
      rw [dictLookup_dictUpdateAll_of_ne cs _ k hne, dictLookup_dictUpdate]
      simp
    · exact ih _ hnd.2 h

theorem lookup_id (a : SendArgs) (h : ∀ kv ∈ a.custom_attributes, kv.1 ≠ "id") :
    dictLookup (buildParams a) "id" = some (.str a.device_id) := by
  simp only [buildParams]
  rw [dictLookup_dictUpdateAll_of_ne _ _ _ h]
  simp [dictLookup_addOpt, dictLookup]

theorem lookup_lat (a : SendArgs) (h : ∀ kv ∈ a.custom_attributes, kv.1 ≠ "lat") :
    dictLookup (buildParams a) "lat" = some (.num a.lat) := by
  simp only [buildParams]
  rw [dictLookup_dictUpdateAll_of_ne _ _ _ h]
  simp [dictLookup_addOpt, dictLookup]

theorem lookup_lon (a : SendArgs) (h : ∀ kv ∈ a.custom_attributes, kv.1 ≠ "lon") :
    dictLookup (buildParams a) "lon" = some (.num a.lon) := by
  simp only [buildParams]
  rw [dictLookup_dictUpdateAll_of_ne _ _ _ h]
  simp [dictLookup_addOpt, dictLookup]

theorem lookup_timestamp (a : SendArgs)
    (h : ∀ kv ∈ a.custom_attributes, kv.1 ≠ "timestamp") :
    dictLookup (buildParams a) "timestamp"
      = a.timestamp.map (fun t => .num (.int (pyTrunc (t * 1000)))) := by
  simp only [buildParams]
  rw [dictLookup_dictUpdateAll_of_ne _ _ _ h]
  cases a.timestamp <;> simp [dictLookup_addOpt, dictLookup, Option.or]

theorem lookup_speed (a : SendArgs) (h : ∀ kv ∈ a.custom_attributes, kv.1 ≠ "speed") :
    dictLookup (buildParams a) "speed" = a.speed.map .num := by
  simp only [buildParams]
  rw [dictLookup_dictUpdateAll_of_ne _ _ _ h]
  cases a.speed <;> simp [dictLookup_addOpt, dictLookup, Option.or]

theorem lookup_bearing (a : SendArgs) (h : ∀ kv ∈ a.custom_attributes, kv.1 ≠ "bearing") :
    dictLookup (buildParams a) "bearing" = a.bearing.map .num := by
  simp only [buildParams]
  rw [dictLookup_dictUpdateAll_of_ne _ _ _ h]
  cases a.bearing <;> simp [dictLookup_addOpt, dictLookup, Option.or]

theorem lookup_altitude (a : SendArgs) (h : ∀ kv ∈ a.custom_attributes, kv.1 ≠ "altitude") :
    dictLookup (buildParams a) "altitude" = a.altitude.map .num := by
  simp only [buildParams]
  rw [dictLookup_dictUpdateAll_of_ne _ _ _ h]
  cases a.altitude <;> simp [dictLookup_addOpt, dictLookup, Option.or]

theorem lookup_accuracy (a : SendArgs) (h : ∀ kv ∈ a.custom_attributes, kv.1 ≠ "accuracy") :
    dictLookup (buildParams a) "accuracy" = a.accuracy.map .num := by
  simp only [buildParams]
  rw [dictLookup_dictUpdateAll_of_ne _ _ _ h]
  cases a.accuracy <;> simp [dictLookup_addOpt, dictLookup, Option.or]

theorem lookup_hdop (a : SendArgs) (h : ∀ kv ∈ a.custom_attributes, kv.1 ≠ "hdop") :
    dictLookup (buildParams a) "hdop" = a.hdop.map .num := by
  simp only [buildParams]
  rw [dictLookup_dictUpdateAll_of_ne _ _ _ h]
  cases a.hdop <;> simp [dictLookup_addOpt, dictLookup, Option.or]

theorem lookup_batt (a : SendArgs) (h : ∀ kv ∈ a.custom_attributes, kv.1 ≠ "batt") :
    dictLookup (buildParams a) "batt" = a.battery.map .num := by
  simp only [buildParams]
  rw [dictLookup_dictUpdateAll_of_ne _ _ _ h]
  cases a.battery <;> simp [dictLookup_addOpt, dictLookup, Option.or]

theorem lookup_charge (a : SendArgs) (h : ∀ kv ∈ a.custom_attributes, kv.1 ≠ "charge") :
    dictLookup (buildParams a) "charge"
      = a.charge.map (fun b => .str (if b then "true" else "false")) := by
  simp only [buildParams]
  rw [dictLookup_dictUpdateAll_of_ne _ _ _ h]
  cases a.charge <;> simp [dictLookup_addOpt, dictLookup, Option.or]

theorem lookup_valid (a : SendArgs) (h : ∀ kv ∈ a.custom_attributes, kv.1 ≠ "valid") :
    dictLookup (buildParams a) "valid"
      = a.valid.map (fun b => .str (if b then "true" else "false")) := by
  simp only [buildParams]
  rw [dictLookup_dictUpdateAll_of_ne _ _ _ h]
  cases a.valid <;> simp [dictLookup_addOpt, dictLookup, Option.or]

theorem lookup_driverUniqueId (a : SendArgs)
    (h : ∀ kv ∈ a.custom_attributes, kv.1 ≠ "driverUniqueId") :
    dictLookup (buildParams a) "driverUniqueId" = a.driver_unique_id.map .str := by
  simp only [buildParams]
  rw [dictLookup_dictUpdateAll_of_ne _ _ _ h]
  cases a.driver_unique_id <;> simp [dictLookup_addOpt, dictLookup, Option.or]

/-- An event delivered to the subscribed handlers of `src/main.py`:
a `BatteryEvent` (integer percentage `value`) handled by `on_battery`,
or a `GpsPositionEvent` handled by `on_gps_position`, which calls
`sendGpsPositionToTraccar`. -/
inductive GlueEvent where
  | batteryEvent (value : Int)
  | gpsPosition (latitude longitude : ℚ)
  deriving DecidableEq, Repr

/-- Whether an event is a `BatteryEvent`. -/
def GlueEvent.isBatteryEvent : GlueEvent → Bool
  | .batteryEvent _ => true
  | .gpsPosition _ _ => false

/-- Value of the module-level `lastKnownBattery` after the handlers of
`src/main.py` process a list of events starting from state `s`
(`None` at module load): `on_battery` overwrites it with `event.value`;
the GPS handler reads but never writes it. -/
def lastKnownBatteryAfter : Option Int → List GlueEvent → Option Int
  | s, [] => s
  | _, .batteryEvent v :: rest => lastKnownBatteryAfter (some v) rest
  | s, .gpsPosition _ _ :: rest => lastKnownBatteryAfter s rest

/-- The `battery=` argument of each `send_osmand_position` call made by
`sendGpsPositionToTraccar`, in event order, starting from battery state
`s`: every `GpsPositionEvent` triggers exactly one call with
`battery=lastKnownBattery` as it is at that moment. -/
def reportBatteries : Option Int → List GlueEvent → List (Option Int)
  | _, [] => []
  | _, .batteryEvent v :: rest => reportBatteries (some v) rest
  | s, .gpsPosition _ _ :: rest => s :: reportBatteries s rest

/-- Number of GPS position events in a list (= number of reports its
processing triggers). -/
def countGps : List GlueEvent → Nat
  | [] => 0
  | .batteryEvent _ :: rest => countGps rest
  | .gpsPosition _ _ :: rest => countGps rest + 1

/-- The `SendArgs` of the call
`send_osmand_position(traccar_url, did, event.latitude, event.longitude,
battery=lastKnownBattery)` made by `sendGpsPositionToTraccar`. -/
def glueSendArgs (url did : String) (lat lon : ℚ) (batt : Option Int) : SendArgs :=
  { traccar_url := url, device_id := did, lat := .float lat, lon := .float lon,
    battery := batt.map .int }

theorem lastKnownBatteryAfter_of_noBattery (s : Option Int) (l : List GlueEvent)
    (h : l.all (fun e => !e.isBatteryEvent) = true) :
    lastKnownBatteryAfter s l = s := by
  induction l generalizing s with
  | nil => rfl
  | cons e rest ih =>
    rw [List.all_cons, Bool.and_eq_true] at h
    cases e with
    | batteryEvent v => simp [GlueEvent.isBatteryEvent] at h
    | gpsPosition la lo => exact ih s h.2

theorem lastKnownBatteryAfter_append (s : Option Int) (l₁ l₂ : List GlueEvent) :
    lastKnownBatteryAfter s (l₁ ++ l₂)
      = lastKnownBatteryAfter (lastKnownBatteryAfter s l₁) l₂ := by
  induction l₁ generalizing s with
  | nil => rfl
  | cons e rest ih => cases e <;> simp [lastKnownBatteryAfter, ih]

theorem reportBatteries_get (s : Option Int) (pre post : List GlueEvent) (lat lon : ℚ) :
    (reportBatteries s (pre ++ .gpsPosition lat lon :: post)).get? (countGps pre)
      = some (lastKnownBatteryAfter s pre) := by
  induction pre generalizing s with
  | nil => rfl
  | cons e rest ih =>
    cases e with
    | batteryEvent v =>
        simpa [reportBatteries, countGps, lastKnownBatteryAfter] using ih (some v)
    | gpsPosition la lo =>
        simpa [reportBatteries, countGps, lastKnownBatteryAfter] using ih s

example :
    dictLookup (buildParams
      { traccar_url := "http://h:5055/", device_id := "veh-1",
        lat := .float (37 : ℚ), lon := .float (-122 : ℚ),
        battery := some (.int 85), charge := some true }) "batt"
      = some (.num (.int 85)) := by decide

example :
    reportBatteries none
      [.gpsPosition 1 2, .batteryEvent 77, .gpsPosition 3 4, .batteryEvent 80,
       .gpsPosition 5 6]
      = [none, some 77, some 80] := by decide

example :
    (send_osmand_position
      { traccar_url := "u", device_id := "", lat := .float 0, lon := .float 0 }
      (.response 200 "")).requests = [] := by decide

/-- The protocol-computed parameter keys of `send_osmand_position`. -/
def protocolKeys : List String :=
  ["id", "lat", "lon", "timestamp", "speed", "bearing", "altitude", "accuracy",
   "hdop", "batt", "charge", "valid", "driverUniqueId"]

/-- A concrete valid sample supplying every optional field, a custom
attribute with a non-protocol key, and no caller-supplied session.
Its `timestamp` is 2024-01-01T00:00:00Z, whose `datetime.timestamp()`
is `1704067200.0`. -/
def sampleArgs : SendArgs :=
  { traccar_url := "http://localhost:5055/", device_id := "veh-1",
    lat := .float 37, lon := .float (-122),
    timestamp := some 1704067200, speed := some (.float 5),
    bearing := some (.int 180), altitude := some (.int 10),
    accuracy := some (.float 3), hdop := some (.float 1),
    battery := some (.int 85), charge := some true, valid := some false,
    driver_unique_id := some "drv", sessionProvided := false,
    custom_attributes := [("room", .str "kitchen")] }

/-- A concrete call with an out-of-range latitude. -/
def badLatArgs : SendArgs :=
  { traccar_url := "u", device_id := "veh-1", lat := .float 91, lon := .float 0 }

/-- A concrete call whose custom attribute collides with the protocol
key `lat`. -/
def collideArgs : SendArgs :=
  { traccar_url := "u", device_id := "veh-1", lat := .float 37, lon := .float (-122),
    custom_attributes := [("lat", .num (.int 999))] }

/-- A concrete call with no caller-supplied session and an empty
`device_id`. -/
def noSessionInvalidArgs : SendArgs :=
  { traccar_url := "u", device_id := "", lat := .float 0, lon := .float 0,
    sessionProvided := false }

/-- A concrete call whose latitude is the Python bool `b`. -/
def boolLatArgs (b : Bool) : SendArgs :=
  { traccar_url := "u", device_id := "veh-1", lat := .bool b, lon := .float 0 }

/-- A concrete call whose longitude is the Python bool `b`. -/
def boolLonArgs (b : Bool) : SendArgs :=
  { traccar_url := "u", device_id := "veh-1", lat := .float 0, lon := .bool b }

/-- C1: for every valid sample whose custom attributes avoid the protocol
keys, the encoded parameter dict maps `id`, `lat`, `lon` to the required
fields, and each protocol key of an optional field to exactly the
transformed supplied value when the field is supplied and to nothing when
it is not (`battery` under `batt`; `charge` and `valid` as the strings
`"true"`/`"false"`; `driver_unique_id` under `driverUniqueId`;
`speed`/`bearing`/`altitude`/`accuracy`/`hdop` under same-named keys;
`timestamp` as truncated epoch milliseconds): each equation with
`Option.map` states both presence with the exact transformation and total
absence for an unsupplied field. -/
theorem c1_param_encoding (a : SendArgs)
    (hvalid : validationError a = none)
    (hdisj : ∀ kv ∈ a.custom_attributes, kv.1 ∉ protocolKeys) :
    dictLookup (buildParams a) "id" = some (.str a.device_id) ∧
    dictLookup (buildParams a) "lat" = some (.num a.lat) ∧
    dictLookup (buildParams a) "lon" = some (.num a.lon) ∧
    dictLookup (buildParams a) "batt" = a.battery.map PVal.num ∧
    dictLookup (buildParams a) "charge"
      = a.charge.map (fun b => .str (if b then "true" else "false")) ∧
    dictLookup (buildParams a) "valid"
      = a.valid.map (fun b => .str (if b then "true" else "false")) ∧
    dictLookup (buildParams a) "driverUniqueId" = a.driver_unique_id.map PVal.str ∧
    dictLookup (buildParams a) "speed" = a.speed.map PVal.num ∧
    dictLookup (buildParams a) "bearing" = a.bearing.map PVal.num ∧
    dictLookup (buildParams a) "altitude" = a.altitude.map PVal.num ∧
    dictLookup (buildParams a) "accuracy" = a.accuracy.map PVal.num ∧
    dictLookup (buildParams a) "hdop" = a.hdop.map PVal.num ∧
    dictLookup (buildParams a) "timestamp"
      = a.timestamp.map (fun t => .num (.int (pyTrunc (t * 1000)))) := by
  have h : ∀ k : String, k ∈ protocolKeys → ∀ kv ∈ a.custom_attributes, kv.1 ≠ k := by
    intro k hk kv hm he
    exact hdisj kv hm (he ▸ hk)
  exact ⟨lookup_id a (h _ (by decide)), lookup_lat a (h _ (by decide)),
    lookup_lon a (h _ (by decide)), lookup_batt a (h _ (by decide)),
    lookup_charge a (h _ (by decide)), lookup_valid a (h _ (by decide)),
    lookup_driverUniqueId a (h _ (by decide)), lookup_speed a (h _ (by decide)),
    lookup_bearing a (h _ (by decide)), lookup_altitude a (h _ (by decide)),
    lookup_accuracy a (h _ (by decide)), lookup_hdop a (h _ (by decide)),
    lookup_timestamp a (h _ (by decide))⟩

/-- C1 witness: the encoding equations evaluated on the concrete sample
`sampleArgs`, which supplies every optional field. -/
theorem c1_param_encoding_witness :
    validationError sampleArgs = none ∧
    (∀ kv ∈ sampleArgs.custom_attributes, kv.1 ∉ protocolKeys) ∧
    (dictLookup (buildParams sampleArgs) "id" = some (.str sampleArgs.device_id) ∧
    dictLookup (buildParams sampleArgs) "lat" = some (.num sampleArgs.lat) ∧
    dictLookup (buildParams sampleArgs) "lon" = some (.num sampleArgs.lon) ∧
    dictLookup (buildParams sampleArgs) "batt" = sampleArgs.battery.map PVal.num ∧
    dictLookup (buildParams sampleArgs) "charge"
      = sampleArgs.charge.map (fun b => .str (if b then "true" else "false")) ∧
    dictLookup (buildParams sampleArgs) "valid"
      = sampleArgs.valid.map (fun b => .str (if b then "true" else "false")) ∧
    dictLookup (buildParams sampleArgs) "driverUniqueId"
      = sampleArgs.driver_unique_id.map PVal.str ∧
    dictLookup (buildParams sampleArgs) "speed" = sampleArgs.speed.map PVal.num ∧
    dictLookup (buildParams sampleArgs) "bearing" = sampleArgs.bearing.map PVal.num ∧
    dictLookup (buildParams sampleArgs) "altitude" = sampleArgs.altitude.map PVal.num ∧
    dictLookup (buildParams sampleArgs) "accuracy" = sampleArgs.accuracy.map PVal.num ∧
    dictLookup (buildParams sampleArgs) "hdop" = sampleArgs.hdop.map PVal.num ∧
    dictLookup (buildParams sampleArgs) "timestamp"
      = sampleArgs.timestamp.map (fun t => .num (.int (pyTrunc (t * 1000))))) :=
  ⟨by decide, by decide, c1_param_encoding sampleArgs (by decide) (by decide)⟩

/-- C2: a call whose `device_id` is empty, or whose latitude is not a
number in `[-90, 90]`, or whose longitude is not a number in
`[-180, 180]`, raises `ValueError` with zero requests attempted and no
session created (validation runs before any network I/O). -/
theorem c2_validation_fails_fast (a : SendArgs) (net : NetOutcome)
    (h : a.device_id = "" ∨
      ¬(a.lat.isNumeric = true ∧ -90 ≤ a.lat.toRat ∧ a.lat.toRat ≤ 90) ∨
      ¬(a.lon.isNumeric = true ∧ -180 ≤ a.lon.toRat ∧ a.lon.toRat ≤ 180)) :
    ∃ msg, (send_osmand_position a net).result = .error (.valueError msg) ∧
      (send_osmand_position a net).requests = [] ∧
      (send_osmand_position a net).createdSession = false := by
  have hv : ∃ m, validationError a = some m := by
    unfold validationError
    rcases h with h | h | h
    · exact ⟨"device_id is required", by simp [h]⟩
    · by_cases h1 : a.device_id = ""
      · exact ⟨"device_id is required", by simp [h1]⟩
      · exact ⟨"lat must be a number between -90 and 90", by simp [h1, h]⟩
    · by_cases h1 : a.device_id = ""
      · exact ⟨"device_id is required", by simp [h1]⟩
      · by_cases h2 : a.lat.isNumeric = true ∧ -90 ≤ a.lat.toRat ∧ a.lat.toRat ≤ 90
        · exact ⟨"lon must be a number between -180 and 180", by simp [h1, h2, h]⟩
        · exact ⟨"lat must be a number between -90 and 90", by simp [h1, h2]⟩
  obtain ⟨m, hm⟩ := hv
  exact ⟨m, by simp [send_osmand_position, hm]⟩

/-- C2 witness: the out-of-range latitude `91` fails with `ValueError`,
zero requests and no session, evaluated on `badLatArgs`. -/
theorem c2_validation_fails_fast_witness :
    (badLatArgs.device_id = "" ∨
      ¬(badLatArgs.lat.isNumeric = true ∧
        -90 ≤ badLatArgs.lat.toRat ∧ badLatArgs.lat.toRat ≤ 90) ∨
      ¬(badLatArgs.lon.isNumeric = true ∧
        -180 ≤ badLatArgs.lon.toRat ∧ badLatArgs.lon.toRat ≤ 180)) ∧
    ∃ msg, (send_osmand_position badLatArgs (.response 200 "")).result
        = .error (.valueError msg) ∧
      (send_osmand_position badLatArgs (.response 200 "")).requests = [] ∧
      (send_osmand_position badLatArgs (.response 200 "")).createdSession = false :=
  ⟨Or.inr (Or.inl (by decide)),
   c2_validation_fails_fast badLatArgs (.response 200 "")
     (Or.inr (Or.inl (by decide)))⟩

/-- C3: for a validated call, a response with status 200 is the only
success outcome; any other status (2xx included) raises
`aiohttp.ClientError` whose message carries the failing status code and
the response body. -/
theorem c3_only_200_success (a : SendArgs) (hvalid : validationError a = none)
    (s : Nat) (b : String) :
    (send_osmand_position a (.response s b)).result
      = if s = 200 then .ok true
        else .error (.clientError
          ("Traccar request failed with status " ++ toString s ++ ": " ++ b)) := by
  by_cases h : s = 200 <;> simp [send_osmand_position, hvalid, h]

/-- C3 witness: a 404 response with body `Not Found` on the concrete
valid sample is reported as `aiohttp.ClientError` carrying both the
status and the body; a 204 response is likewise a failure; a 200
response succeeds. -/
theorem c3_only_200_success_witness :
    validationError sampleArgs = none ∧
    (send_osmand_position sampleArgs (.response 404 "Not Found")).result
      = .error (.clientError "Traccar request failed with status 404: Not Found") ∧
    (send_osmand_position sampleArgs (.response 204 "")).result
      = .error (.clientError "Traccar request failed with status 204: ") ∧
    (send_osmand_position sampleArgs (.response 200 "ignored")).result = .ok true := by
  refine ⟨by decide, ?_, ?_, ?_⟩
  · exact (c3_only_200_success sampleArgs (by decide) 404 "Not Found").trans (by decide)
  · exact (c3_only_200_success sampleArgs (by decide) 204 "").trans (by decide)
  · exact (c3_only_200_success sampleArgs (by decide) 200 "ignored").trans (by decide)

/-- C4 counterexample: on the concrete valid sample, a 404 protocol
rejection and a connection-refused network failure both escape as
instances of the single exception type `aiohttp.ClientError` (the code
raises a plain `aiohttp.ClientError` for the non-200 status, and
aiohttp's `ClientConnectorError` is a subclass of it), so the failure
kinds are not split into two distinct, non-overlapping error types. -/
theorem c4_single_error_type_counterexample :
    (send_osmand_position sampleArgs (.response 404 "Not Found")).result
      = .error (.clientError "Traccar request failed with status 404: Not Found") ∧
    (send_osmand_position sampleArgs (.connError "Cannot connect to host")).result
      = .error (.clientConnectorError "Cannot connect to host") ∧
    SendError.isAiohttpClientError
      (.clientError "Traccar request failed with status 404: Not Found") = true ∧
    SendError.isAiohttpClientError
      (.clientConnectorError "Cannot connect to host") = true := by
  decide

/-- C4 (amended): for a validated call, connection-level failures
propagate as `aiohttp.ClientConnectorError`, timeouts as
`asyncio.TimeoutError`, and a non-200 response raises a plain
`aiohttp.ClientError` carrying the status and body in its message;
`ClientConnectorError` being a subclass of `ClientError`, the single
type `aiohttp.ClientError` covers both connection-level and
protocol-level failures — only the timeout is type-distinct. -/
theorem c4_error_kinds_amended (a : SendArgs) (hvalid : validationError a = none)
    (s : Nat) (hs : s ≠ 200) (b msg : String) :
    (send_osmand_position a (.connError msg)).result
      = .error (.clientConnectorError msg) ∧
    (send_osmand_position a .timeout).result = .error .timeoutError ∧
    (send_osmand_position a (.response s b)).result
      = .error (.clientError
          ("Traccar request failed with status " ++ toString s ++ ": " ++ b)) ∧
    SendError.isAiohttpClientError (.clientConnectorError msg) = true ∧
    SendError.isAiohttpClientError (.clientError
      ("Traccar request failed with status " ++ toString s ++ ": " ++ b)) = true ∧
    SendError.isAiohttpClientError .timeoutError = false := by
  refine ⟨by simp [send_osmand_position, hvalid], by simp [send_osmand_position, hvalid],
    by simp [send_osmand_position, hvalid, hs], rfl, rfl, rfl⟩

/-- C4 amended witness: evaluated on the concrete valid sample with a
500 response and a connection-refused failure. -/
theorem c4_error_kinds_amended_witness :
    validationError sampleArgs = none ∧ (500 : Nat) ≠ 200 ∧
    (send_osmand_position sampleArgs (.connError "refused")).result
      = .error (.clientConnectorError "refused") ∧
    (send_osmand_position sampleArgs .timeout).result = .error .timeoutError ∧
    (send_osmand_position sampleArgs (.response 500 "ISE")).result
      = .error (.clientError "Traccar request failed with status 500: ISE") ∧
    SendError.isAiohttpClientError (.clientConnectorError "refused") = true ∧
    SendError.isAiohttpClientError
      (.clientError "Traccar request failed with status 500: ISE") = true ∧
    SendError.isAiohttpClientError .timeoutError = false := by
  have h := c4_error_kinds_amended sampleArgs (by decide) 500 (by decide) "ISE" "refused"
  exact ⟨by decide, by decide, h.1, h.2.1, h.2.2.1.trans (by decide), by decide,
    by decide, by decide⟩

/-- C5: a custom attribute whose key collides with any protocol-computed
key (or any key at all) wins: since `params.update(custom_attributes)`
runs after all protocol fields are set, the final dict maps that key to
the custom value verbatim. -/
theorem c5_custom_attributes_override (a : SendArgs) (k : String) (v : PVal)
    (hnd : (a.custom_attributes.map Prod.fst).Nodup)
    (hm : (k, v) ∈ a.custom_attributes) :
    dictLookup (buildParams a) k = some v := by
  simp only [buildParams]
  exact dictLookup_dictUpdateAll_of_mem _ _ _ _ hnd hm

/-- C5 witness: `extra={"lat": 999}` overrides the protocol-computed
latitude `37` in the final request parameters of `collideArgs`. -/
theorem c5_custom_attributes_override_witness :
    (collideArgs.custom_attributes.map Prod.fst).Nodup ∧
    ("lat", PVal.num (.int 999)) ∈ collideArgs.custom_attributes ∧
    collideArgs.lat = .float 37 ∧
    dictLookup (buildParams collideArgs) "lat" = some (.num (.int 999)) :=
  ⟨by decide, by decide, by decide,
   c5_custom_attributes_override collideArgs "lat" (.num (.int 999))
     (by decide) (by decide)⟩

/-- C6 counterexample: a call without a caller-supplied session whose
sample fails validation creates no session at all (and closes none) —
the validation `ValueError` is raised before the session-creation code
runs — contradicting the claim that every call without a supplied
session creates its own session and closes it on every exit path. -/
theorem c6_session_counterexample :
    noSessionInvalidArgs.sessionProvided = false ∧
    (send_osmand_position noSessionInvalidArgs (.response 200 "")).createdSession = false ∧
    (send_osmand_position noSessionInvalidArgs (.response 200 "")).closedCreatedSession
      = false ∧
    (send_osmand_position noSessionInvalidArgs (.response 200 "")).result
      = .error (.valueError "device_id is required") := by
  decide

/-- C6 (amended): a caller-supplied session is never closed on any exit
path; when no session is supplied, the call creates its own session
exactly when the sample passes validation (on validation failure it
raises before the session-creation code), and every session the call
creates is closed on every exit path — success, non-200 failure,
connection error, or timeout. -/
theorem c6_session_lifecycle_amended (a : SendArgs) (net : NetOutcome) :
    (send_osmand_position a net).closedProvidedSession = false ∧
    (send_osmand_position a net).createdSession
      = (!a.sessionProvided && (validationError a).isNone) ∧
    (send_osmand_position a net).closedCreatedSession
      = (send_osmand_position a net).createdSession := by
  cases hv : validationError a with
  | some m => simp [send_osmand_position, hv]
  | none =>
    cases net with
    | response s b => by_cases h : s = 200 <;> simp [send_osmand_position, hv, h]
    | connError m => simp [send_osmand_position, hv]
    | timeout => simp [send_osmand_position, hv]

/-- C7: a supplied timestamp whose epoch value in milliseconds is the
integer `m` is encoded under the key `timestamp` exactly as `m`
(`int(timestamp.timestamp() * 1000)`). -/
theorem c7_timestamp_epoch_millis (a : SendArgs) (t : ℚ) (m : Int)
    (ht : a.timestamp = some t) (hm : t * 1000 = (m : ℚ))
    (hdisj : ∀ kv ∈ a.custom_attributes, kv.1 ≠ "timestamp") :
    dictLookup (buildParams a) "timestamp" = some (.num (.int m)) := by
  rw [lookup_timestamp a hdisj, ht, Option.map_some']
  suffices h : pyTrunc (t * 1000) = m by rw [h]
  rw [pyTrunc, hm]
  split <;> simp

/-- C7 witness: the instant 2024-01-01T00:00:00Z
(`timestamp() = 1704067200.0`, as supplied in `sampleArgs`) encodes to
exactly `1704067200000` under key `timestamp`. -/
theorem c7_timestamp_epoch_millis_witness :
    sampleArgs.timestamp = some 1704067200 ∧
    (1704067200 : ℚ) * 1000 = ((1704067200000 : Int) : ℚ) ∧
    (∀ kv ∈ sampleArgs.custom_attributes, kv.1 ≠ "timestamp") ∧
    dictLookup (buildParams sampleArgs) "timestamp"
      = some (.num (.int 1704067200000)) :=
  ⟨rfl, by norm_num, by decide,
   c7_timestamp_epoch_millis sampleArgs 1704067200 1704067200000 rfl
     (by norm_num) (by decide)⟩

/-- C8 counterexample: the success path of `send_osmand_position` prints
a diagnostic line (`print(f"Traccar request succeeded ...")`), so the
component's side effects are not limited to the one network request and
the returned outcome; moreover a validation-failing call performs zero
network requests rather than exactly one. -/
theorem c8_side_effects_counterexample :
    (send_osmand_position sampleArgs (.response 200 "OK")).printed
      = ["Traccar request succeeded with status 200"] ∧
    (send_osmand_position noSessionInvalidArgs (.response 200 "OK")).requests.length
      = 0 := by
  decide

/-- C8 (amended): a call attempts exactly one network request when
validation passes and zero when it fails; no retry ever issues a second
request; the call returns success exactly when validation passed and the
server answered 200 — a failure is never converted into a success — but
on success the component prints one diagnostic line (and prints nothing
otherwise), so its side effects are not limited to the request and the
outcome. -/
theorem c8_side_effects_amended (a : SendArgs) (net : NetOutcome) :
    (send_osmand_position a net).requests.length
      = (if (validationError a).isNone then 1 else 0) ∧
    ((send_osmand_position a net).result = .ok true ↔
      (validationError a = none ∧ ∃ b, net = .response 200 b)) ∧
    (send_osmand_position a net).printed
      = (if (send_osmand_position a net).result = .ok true
         then ["Traccar request succeeded with status 200"] else []) := by
  cases hv : validationError a with
  | some m => simp [send_osmand_position, hv]
  | none =>
    cases net with
    | response s b =>
      by_cases h : s = 200
      · subst h
        refine ⟨by simp [send_osmand_position, hv], ?_, ?_⟩
        · simp [send_osmand_position, hv]
        · simp only [send_osmand_position, hv]
          norm_num
          decide
      · simp [send_osmand_position, hv, h]
    | connError m => simp [send_osmand_position, hv]
    | timeout => simp [send_osmand_position, hv]

/-- C9: a Python bool passed as `lat` (or `lon`) passes the numeric
validation — `bool` is a subclass of `int`, so
`isinstance(lat, (int, float))` holds, and `True`/`False` compare as
`1`/`0`, inside both coordinate ranges — so no `ValueError` is raised,
the error branch is unreachable for boolean coordinates, and the bool is
stored as the coordinate parameter with numeric value `1` or `0`. -/
theorem c9_bool_coordinates_accepted (b : Bool) :
    (PyNumber.bool b).isNumeric = true ∧
    (-90 ≤ (PyNumber.bool b).toRat ∧ (PyNumber.bool b).toRat ≤ 90) ∧
    (PyNumber.bool b).toRat = (if b then 1 else 0) ∧
    validationError (boolLatArgs b) = none ∧
    validationError (boolLonArgs b) = none ∧
    dictLookup (buildParams (boolLatArgs b)) "lat" = some (.num (.bool b)) ∧
    dictLookup (buildParams (boolLonArgs b)) "lon" = some (.num (.bool b)) := by
  cases b <;> decide

/-- C10: in the event-glue layer of `src/main.py`, a GPS report
triggered after event prefix `pre` carries exactly
`lastKnownBattery` as computed over `pre`; while no `BatteryEvent` has
occurred that value is `None` and the `batt` parameter is omitted
entirely from the resulting request (no default is transmitted); after
any `BatteryEvent`, reports carry the most recently observed value. -/
theorem c10_last_known_battery (url did : String) (lat lon : ℚ)
    (pre post : List GlueEvent) :
    (reportBatteries none (pre ++ .gpsPosition lat lon :: post)).get? (countGps pre)
      = some (lastKnownBatteryAfter none pre) ∧
    (pre.all (fun e => !e.isBatteryEvent) = true →
      lastKnownBatteryAfter none pre = none ∧
      dictLookup (buildParams (glueSendArgs url did lat lon none)) "batt" = none) ∧
    (∀ (v : Int) (pre₁ pre₂ : List GlueEvent),
      pre = pre₁ ++ .batteryEvent v :: pre₂ →
      pre₂.all (fun e => !e.isBatteryEvent) = true →
      lastKnownBatteryAfter none pre = some v ∧
      dictLookup (buildParams (glueSendArgs url did lat lon (some v))) "batt"
        = some (.num (.int v))) := by
  refine ⟨reportBatteries_get none pre post lat lon, fun h => ⟨?_, ?_⟩,
    fun v pre₁ pre₂ hpre h2 => ⟨?_, ?_⟩⟩
  · exact lastKnownBatteryAfter_of_noBattery none pre h
  · rw [lookup_batt _ (by simp [glueSendArgs])]
    simp [glueSendArgs]
  · subst hpre
    rw [lastKnownBatteryAfter_append]
    exact lastKnownBatteryAfter_of_noBattery _ pre₂ h2
  · rw [lookup_batt _ (by simp [glueSendArgs])]
    simp [glueSendArgs]

/-- C10 witness: for the traces `[BatteryEvent 77]` and `[]` before a
GPS fix, the report after the battery event carries `77` under `batt`
and the report before any battery event omits `batt`. -/
theorem c10_last_known_battery_witness :
    (reportBatteries none
        ([GlueEvent.batteryEvent 77] ++ GlueEvent.gpsPosition 1 2 :: [])).get?
        (countGps [GlueEvent.batteryEvent 77]) = some (some 77) ∧
    lastKnownBatteryAfter none [GlueEvent.batteryEvent 77] = some 77 ∧
    dictLookup (buildParams (glueSendArgs "http://t:5055" "did-1" 1 2 (some 77))) "batt"
      = some (.num (.int 77)) ∧
    lastKnownBatteryAfter none ([] : List GlueEvent) = none ∧
    dictLookup (buildParams (glueSendArgs "http://t:5055" "did-1" 1 2 none)) "batt"
      = none := by
  have h := c10_last_known_battery "http://t:5055" "did-1" 1 2 [GlueEvent.batteryEvent 77] []
  have h0 := c10_last_known_battery "http://t:5055" "did-1" 1 2 [] []
  have hb := h.2.2 77 [] [] rfl (by decide)
  have h0b := h0.2.1 (by decide)
  exact ⟨h.1.trans (by decide), hb.1, hb.2, h0b.1, h0b.2⟩
